import Mathlib

/-!
Shallow embedding of the tasks service (`src/app.py`, `src/auth.py`).

The service is a Flask CRUD API over MongoDB with three pieces of real
logic: a JWKS (key-set) cache with TTL, a bearer-token verification
pipeline, and an idempotency store consulted by the create handler.

External collaborators (Flask routing, MongoDB, the `jose` JWT library,
the network) are modelled at their interfaces: request bodies are JSON
objects (association lists of JSON values), MongoDB collections are Lean
lists with first-match semantics mirroring `find_one` /
`find_one_and_update`, id generation is a fresh counter in the state,
the network fetch and the JWT decode are oracle parameters supplied to
the embedded functions, and `time.time()` / `time.strftime` values are
explicit parameters.
-/

namespace TasksService

/-- JSON scalar values, enough to model request/response fields. -/
inductive JVal where
  | jnull
  | jbool (b : Bool)
  | jnum (n : Int)
  | jstr (s : String)
deriving DecidableEq, Repr

/-- A JSON object (a request body): ordered field list, first binding wins
on lookup, mirroring a Python dict at the granularity the handlers use. -/
def Body := List (String × JVal)

instance : DecidableEq Body := inferInstanceAs (DecidableEq (List (String × JVal)))

/-- `dados["campo"]` / `"campo" in dados`: first binding for a field name. -/
def Body.get? (b : Body) (k : String) : Option JVal :=
  (List.lookup k b)

/-- Python `dados.get(k, default)`. -/
def Body.getD (b : Body) (k : String) (d : JVal) : JVal :=
  (b.get? k).getD d

/-- Python truthiness of an optional JSON value (`None`/missing is falsy,
`False`, `0`, `""` are falsy, everything else truthy). Used by
`atualizar_tarefa`'s snapshot status computation. -/
def jvalTruthy : Option JVal → Bool
  | none => false
  | some .jnull => false
  | some (.jbool b) => b
  | some (.jnum n) => n ≠ 0
  | some (.jstr s) => s ≠ ""

/-- A stored task document (`mongo.db.tarefas`), per the fields written by
`criar_tarefa` in `src/app.py`. -/
structure TaskDoc where
  id : Nat
  titulo : JVal
  descricao : JVal
  concluida : JVal
  owner : Option String
  criado_em : String
  atualizado_em : String
deriving DecidableEq, Repr

/-- A task snapshot document (`mongo.db.task_snapshots`). `owner?` and
`criado_em?` are `Option`-wrapped a second time because the update path's
upsert can create a snapshot lacking those fields entirely. -/
structure SnapDoc where
  titulo : JVal
  descricao : JVal
  owner? : Option (Option String)
  criado_em? : Option String
  status : String
  atualizado_em : String
deriving DecidableEq, Repr

/-- The response body of a successful create (also what the idempotency
store records): `{id, titulo, descricao, concluida}`. Ids are the fresh
counter; `str(ObjectId)` is injective so equality of ids is preserved. -/
structure Resource where
  id : Nat
  titulo : JVal
  descricao : JVal
  concluida : JVal
deriving DecidableEq, Repr

/-- One record of `mongo.db.idempotency`. -/
structure IdemRecord where
  collection : String
  idempotency_key : String
  resource : Resource
deriving DecidableEq, Repr

/-- The database state plus the id generator. -/
structure DB where
  tarefas : List TaskDoc
  snapshots : List (Nat × SnapDoc)
  idem : List IdemRecord
  nextId : Nat
deriving DecidableEq, Repr

/-- Python truthiness of the `Idempotency-Key` header value: `None`
(absent) and the empty string are falsy; `get_idempotency_record` and
`save_idempotency_record` both short-circuit on a falsy key. -/
def keyTruthy : Option String → Bool
  | none => false
  | some s => s ≠ ""

/-- `get_idempotency_record(collection_name, idempotency_key)`:
`find_one({"collection": c, "idempotency_key": k})`, `None` on falsy key. -/
def get_idempotency_record (collection_name : String) (idempotency_key : Option String)
    (db : DB) : Option IdemRecord :=
  match idempotency_key with
  | none => none
  | some k =>
    if k = "" then none
    else db.idem.find? (fun r => r.collection = collection_name ∧ r.idempotency_key = k)

/-- `save_idempotency_record`: a `replace_one(..., upsert=True)` keyed by
`(collection, idempotency_key)`; no-op on falsy key. -/
def save_idempotency_record (collection_name : String) (idempotency_key : Option String)
    (resource : Resource) (db : DB) : DB :=
  match idempotency_key with
  | none => db
  | some k =>
    if k = "" then db
    else
      { db with idem :=
          ⟨collection_name, k, resource⟩ ::
            (db.idem.filter fun r =>
              ¬(r.collection = collection_name ∧ r.idempotency_key = k)) }

/-- Replace the first element satisfying `p` by its image under `f`
(MongoDB single-document update semantics). -/
def updateFirst (p : α → Bool) (f : α → α) : List α → List α
  | [] => []
  | x :: xs => if p x then f x :: xs else x :: updateFirst p f xs

/-- First task document with the given `_id` (`find_one` semantics). -/
def taskFind (db : DB) (id : Nat) : Option TaskDoc :=
  db.tarefas.find? (fun t => t.id = id)

/-- First snapshot stored under the given `_id`. -/
def snapFind (db : DB) (id : Nat) : Option SnapDoc :=
  (db.snapshots.find? (fun e => e.1 = id)).map Prod.snd

/-- Outcome of `criar_tarefa` (POST /tarefas), past the auth decorator. -/
inductive CreateResult where
  | badRequest                 -- 400, "Campo 'descricao' é obrigatório"
  | replay (r : Resource)      -- 200, stored idempotency resource
  | created (r : Resource)     -- 201, fresh resource
deriving DecidableEq, Repr

/-- The resource carried in a successful create response, either branch. -/
def CreateResult.resource? : CreateResult → Option Resource
  | .badRequest => none
  | .replay r => some r
  | .created r => some r

/-- HTTP status of a `criar_tarefa` outcome. -/
def CreateResult.status : CreateResult → Nat
  | .badRequest => 400
  | .replay _ => 200
  | .created _ => 201

/-- `criar_tarefa` (`src/app.py` lines 277-328). `user` is
`request.current_user.get("sub")`, `idemKey` the `Idempotency-Key` header,
`body?` is `request.json` (`none` for an absent/null body), `now` the
`time.strftime` result for this request. -/
def criar_tarefa (user : Option String) (idemKey : Option String)
    (now : String) (body? : Option Body) (db : DB) : CreateResult × DB :=
  match body? with
  | none => (.badRequest, db)
  | some dados =>
    match dados.get? "descricao" with
    | none => (.badRequest, db)
    | some descricao =>
      match get_idempotency_record "tarefas" idemKey db with
      | some existing => (.replay existing.resource, db)
      | none =>
        let titulo := dados.getD "titulo" (.jstr "")
        let concluida := dados.getD "concluida" (.jbool false)
        let tarefa_id := db.nextId
        let tarefa_doc : TaskDoc :=
          ⟨tarefa_id, titulo, descricao, concluida, user, now, now⟩
        let snapshot : SnapDoc :=
          ⟨titulo, descricao, some user, some now, "open", now⟩
        let resource : Resource := ⟨tarefa_id, titulo, descricao, concluida⟩
        let db' : DB :=
          { tarefas := db.tarefas ++ [tarefa_doc]
            snapshots :=
              if (db.snapshots.find? (fun e => e.1 = tarefa_id)).isSome then
                updateFirst (fun e => e.1 = tarefa_id) (fun e => (e.1, snapshot))
                  db.snapshots
              else db.snapshots ++ [(tarefa_id, snapshot)]
            idem := db.idem
            nextId := db.nextId + 1 }
        (.created resource, save_idempotency_record "tarefas" idemKey resource db')

/-- Outcome of `atualizar_tarefa` (PUT /tarefas/id) for a well-formed id. -/
inductive UpdateResult where
  | notFound               -- 404
  | ok (r : Resource)      -- 200, post-update DTO
deriving DecidableEq, Repr

/-- The `$set` document built by `atualizar_tarefa` applied to a task:
supplied fields overwrite, unsupplied fields keep their value;
`atualizado_em` is always set. `_id` and `owner` are untouched. -/
def applySet (dados : Body) (now : String) (t : TaskDoc) : TaskDoc :=
  { t with
    titulo := (dados.get? "titulo").getD t.titulo
    descricao := (dados.get? "descricao").getD t.descricao
    concluida := (dados.get? "concluida").getD t.concluida
    atualizado_em := now }

/-- The snapshot `$set` of the update path, applied to an existing
snapshot entry for the task. -/
def snapSet (t' : TaskDoc) (now : String) (s : SnapDoc) : SnapDoc :=
  { s with
    titulo := t'.titulo
    descricao := t'.descricao
    status := if jvalTruthy (some t'.concluida) then "done" else "open"
    atualizado_em := now }

/-- `atualizar_tarefa` (`src/app.py` lines 333-374), after the
`ObjectId(id)` parse has succeeded. `body?` is `request.json`
(`dados = request.json or {}`). -/
def atualizar_tarefa (id : Nat) (now : String) (body? : Option Body)
    (db : DB) : UpdateResult × DB :=
  let dados : Body := body?.getD []
  match taskFind db id with
  | none => (.notFound, db)
  | some t =>
    let t' := applySet dados now t
    let snapshots' :=
      if (db.snapshots.find? (fun e => e.1 = id)).isSome then
        updateFirst (fun e => e.1 = id) (fun e => (e.1, snapSet t' now e.2))
          db.snapshots
      else
        db.snapshots ++
          [(id, ⟨t'.titulo, t'.descricao, none, none,
                 if jvalTruthy (some t'.concluida) then "done" else "open", now⟩)]
    let db' : DB :=
      { tarefas := updateFirst (fun x => x.id = id) (applySet dados now) db.tarefas
        snapshots := snapshots'
        idem := db.idem
        nextId := db.nextId }
    (.ok ⟨t'.id, t'.titulo, t'.descricao, t'.concluida⟩, db')

/-! ## JWKS cache and bearer-token verification (`src/app.py` lines 61-156) -/

/-- One JWK entry of the provider's key set, at the granularity
`requires_auth_api` reads it (`key.get("kid")` etc.). -/
structure JwkKey where
  kid : Option String
  kty : Option String
  use : Option String
  n : Option String
  e : Option String
deriving DecidableEq, Repr

/-- A parsed JWKS JSON document. `truthy` is the Python truthiness of the
parsed JSON (the cache-freshness test is `if _JWKS_CACHE["jwks"] and ...`,
so a cached falsy document such as `{}` does not count as a cache hit);
`keys` is `jwks.get("keys", [])`. -/
structure Jwks where
  truthy : Bool
  keys : List JwkKey
deriving DecidableEq, Repr

/-- The module-level `_JWKS_CACHE` dict: fetch timestamp, cached document,
TTL. Timestamps are integers standing for `time.time()` values. -/
structure JwksCache where
  fetched_at : Int
  jwks : Option Jwks
  ttl : Int
deriving DecidableEq, Repr

/-- The initial `_JWKS_CACHE = {"fetched_at": 0, "jwks": None, "ttl": 3600}`. -/
def JWKS_CACHE_init : JwksCache := ⟨0, none, 3600⟩

/-- Python truthiness of the `jwks` cache slot. -/
def jwksTruthy : Option Jwks → Bool
  | none => false
  | some j => j.truthy

/-- Outcome of `_get_jwks`. -/
inductive JwksOutcome where
  | ok (j : Jwks)
  | configError        -- RuntimeError: AUTH0_DOMAIN not configured
  | fetchError         -- requests exception / raise_for_status / parse
deriving DecidableEq, Repr

/-- `_get_jwks` (`src/app.py` lines 64-75). `domain` says whether
`AUTH0_DOMAIN` is configured; `fetchResult` is the network oracle for this
call (`none` = the GET/raise_for_status/json step fails). Returns the
outcome, the updated cache, and how many network fetches were performed.
`auth.py`'s `get_jwks` (lines 25-33) implements the same cache logic
without the domain guard. -/
def _get_jwks (domain : Bool) (now : Int) (fetchResult : Option Jwks)
    (c : JwksCache) : JwksOutcome × JwksCache × Nat :=
  if domain = false then (.configError, c, 0)
  else if jwksTruthy c.jwks ∧ now - c.fetched_at < c.ttl then
    (.ok (c.jwks.getD ⟨false, []⟩), c, 0)
  else
    match fetchResult with
    | none => (.fetchError, c, 1)
    | some j => (.ok j, { c with jwks := some j, fetched_at := now }, 1)

/-- Worker for `pySplit`: walks the character list with an accumulator of
the current word's characters in reverse. -/
def pySplitGo : List Char → List Char → List String
  | [], [] => []
  | [], acc => [String.mk acc.reverse]
  | c :: cs, acc =>
    if c.isWhitespace then
      match acc with
      | [] => pySplitGo cs []
      | _ => String.mk acc.reverse :: pySplitGo cs []
    else pySplitGo cs (c :: acc)

/-- Python `str.split()` with no argument: split on runs of whitespace,
dropping empty pieces. Implemented by recursion over the character list so
that concrete instances evaluate by kernel reduction. -/
def pySplit (s : String) : List String :=
  pySplitGo s.data []

/-- Python `str.lower()`, by character-wise mapping. -/
def pyLower (s : String) : String :=
  String.mk (s.data.map Char.toLower)

/-- Decoded JWT claims, at the granularity the handlers read them. -/
structure Payload where
  sub : Option String
  scope : Option JVal
deriving DecidableEq, Repr

/-- Result of `jwt.decode(token, rsa_key, ...)` — an oracle for the `jose`
library: success, `ExpiredSignatureError`, or any other exception. -/
inductive DecodeResult where
  | ok (p : Payload)
  | expired
  | err
deriving DecidableEq, Repr

/-- `scopes.split() if isinstance(scopes, str) else []` applied to
`payload.get("scope", "")`. -/
def scopesList (p : Payload) : List String :=
  match p.scope with
  | some (.jstr s) => pySplit s
  | some _ => []
  | none => []

/-- Outcome of the `requires_auth_api` decorator's checks, one constructor
per return site. `crash` is an unhandled exception escaping the decorator
(Flask turns it into a 500 response). -/
inductive ApiAuthResult where
  | missingHeader                 -- 401 "Authorization header missing"
  | malformedHeader               -- 401 "Invalid Authorization header"
  | crash                         -- unhandled IndexError
  | invalidTokenHeader            -- 401 "Invalid token header"
  | jwksFailure                   -- 500 "Erro ao buscar JWKS"
  | keyNotFound                   -- 401 "Appropriate JWK not found"
  | tokenExpired                  -- 401 "Token expired"
  | tokenInvalid                  -- 401 "Token inválido"
  | insufficientScope             -- 403 "Insufficient scope"
  | authorized (p : Payload)      -- proceed to the wrapped handler
deriving DecidableEq, Repr

/-- HTTP status of each auth outcome (`crash` reaches Flask's default
unhandled-exception handler, a 500). -/
def ApiAuthResult.status : ApiAuthResult → Nat
  | .missingHeader => 401
  | .malformedHeader => 401
  | .crash => 500
  | .invalidTokenHeader => 401
  | .jwksFailure => 500
  | .keyNotFound => 401
  | .tokenExpired => 401
  | .tokenInvalid => 401
  | .insufficientScope => 403
  | .authorized _ => 200

/-- `requires_auth_api` (`src/app.py` lines 81-156): the full check
pipeline run before a protected handler. `testing` is
`app.config["TESTING"]`; `auth` the raw `Authorization` header;
`parseHeader` the `jwt.get_unverified_header` oracle (`none` = raises,
otherwise the `kid` claim of the token header); `decode` the `jwt.decode`
oracle given the token and the matched RSA key. Returns the outcome, the
JWKS cache after the call, and the number of network fetches. -/
def requires_auth_api (testing : Bool) (domain : Bool)
    (required_scope : Option String) (auth : Option String)
    (parseHeader : String → Option (Option String))
    (now : Int) (fetchResult : Option Jwks) (cache : JwksCache)
    (decode : String → JwkKey → DecodeResult) :
    ApiAuthResult × JwksCache × Nat :=
  if testing then (.authorized ⟨some "test-user", none⟩, cache, 0)
  else
    match auth with
    | none => (.missingHeader, cache, 0)
    | some a =>
      if a = "" then (.missingHeader, cache, 0)
      else
        match pySplit a with
        | [] => (.crash, cache, 0)
        | p0 :: rest =>
          if pyLower p0 = "bearer" ∧ (p0 :: rest).length = 2 then
            let token := rest.headD ""
            match parseHeader token with
            | none => (.invalidTokenHeader, cache, 0)
            | some kid? =>
              match _get_jwks domain now fetchResult cache with
              | (.configError, c', n) => (.jwksFailure, c', n)
              | (.fetchError, c', n) => (.jwksFailure, c', n)
              | (.ok jwks, c', n) =>
                match jwks.keys.find? (fun k => k.kid = kid?) with
                | none => (.keyNotFound, c', n)
                | some key =>
                  match decode token key with
                  | .expired => (.tokenExpired, c', n)
                  | .err => (.tokenInvalid, c', n)
                  | .ok payload =>
                    match required_scope with
                    | none => (.authorized payload, c', n)
                    | some s =>
                      if s ∈ scopesList payload then (.authorized payload, c', n)
                      else (.insufficientScope, c', n)
          else (.malformedHeader, cache, 0)

/-! ## Helper lemmas -/

/-- `find?` after a first-match update: if `f` preserves the predicate,
the updated first match is found. -/
theorem updateFirst_find? (p : α → Bool) (f : α → α)
    (hpf : ∀ x, p x = true → p (f x) = true) :
    ∀ l : List α, List.find? p (updateFirst p f l) = (List.find? p l).map f := by
  intro l
  induction l with
  | nil => rfl
  | cons x xs ih =>
    by_cases hp : p x = true
    · simp [updateFirst, hp, hpf x hp]
    · simp [updateFirst, hp, ih]

/-- Characterization of `criar_tarefa` when the body is valid and no
idempotency record is hit: the insertion, snapshot write, idempotency save
and 201 response, spelled out. -/
theorem criar_tarefa_miss_eq (u : Option String) (k : Option String) (now : String)
    (b : Body) (d : JVal) (db : DB)
    (hb : b.get? "descricao" = some d)
    (hidem : get_idempotency_record "tarefas" k db = none) :
    criar_tarefa u k now (some b) db =
      (.created ⟨db.nextId, b.getD "titulo" (.jstr ""), d, b.getD "concluida" (.jbool false)⟩,
       save_idempotency_record "tarefas" k
         ⟨db.nextId, b.getD "titulo" (.jstr ""), d, b.getD "concluida" (.jbool false)⟩
         { tarefas := db.tarefas ++ [⟨db.nextId, b.getD "titulo" (.jstr ""), d,
             b.getD "concluida" (.jbool false), u, now, now⟩]
           snapshots :=
             if (db.snapshots.find? (fun e => e.1 = db.nextId)).isSome then
               updateFirst (fun e => e.1 = db.nextId)
                 (fun e => (e.1, ⟨b.getD "titulo" (.jstr ""), d, some u, some now, "open", now⟩))
                 db.snapshots
             else db.snapshots ++
               [(db.nextId, ⟨b.getD "titulo" (.jstr ""), d, some u, some now, "open", now⟩)]
           idem := db.idem
           nextId := db.nextId + 1 }) := by
  simp only [criar_tarefa, hb, hidem]

/-- Saving an idempotency record does not touch the snapshot store. -/
theorem snapFind_save (c : String) (k : Option String) (r : Resource) (db : DB) (i : Nat) :
    snapFind (save_idempotency_record c k r db) i = snapFind db i := by
  cases k with
  | none => rfl
  | some s =>
    by_cases hs : s = "" <;> simp [save_idempotency_record, snapFind, hs]

/-- Reading back an idempotency record just saved under a truthy key. -/
theorem get_save_idempotency (c k : String) (hk : k ≠ "") (res : Resource) (db : DB) :
    get_idempotency_record c (some k) (save_idempotency_record c (some k) res db)
      = some ⟨c, k, res⟩ := by
  simp [get_idempotency_record, save_idempotency_record, hk]

/-! ## Claim theorems -/

/-- C2: a call to the key-set fetch while a cached (truthy) key set exists
and `now - fetched_at < ttl` (the TTL defaulting to 3600 seconds) returns
the cached set with no network fetch; a call when the cache is empty or
expired performs exactly one network fetch, and on success replaces the
cached set and its fetch timestamp wholesale. -/
theorem jwks_cache_ttl_behavior (now : Int) (fetch : Option Jwks) (c : JwksCache) :
    JWKS_CACHE_init.ttl = 3600 ∧
    (∀ j, c.jwks = some j → j.truthy = true → now - c.fetched_at < c.ttl →
      _get_jwks true now fetch c = (.ok j, c, 0)) ∧
    (¬(jwksTruthy c.jwks = true ∧ now - c.fetched_at < c.ttl) →
      (_get_jwks true now fetch c).2.2 = 1 ∧
      ∀ j, fetch = some j →
        _get_jwks true now fetch c = (.ok j, ⟨now, some j, c.ttl⟩, 1)) := by
  refine ⟨rfl, ?_, ?_⟩
  · intro j hj htr hfresh
    simp [_get_jwks, jwksTruthy, hj, htr, hfresh]
  · intro h
    unfold _get_jwks
    rw [if_neg (by simp), if_neg h]
    cases fetch with
    | none => exact ⟨rfl, fun j hj => by cases hj⟩
    | some j => exact ⟨rfl, fun j' hj => by cases hj; rfl⟩

/-- C2 witness: a fresh cache hit performs no fetch; an expired cache
triggers one fetch that replaces the cache wholesale. -/
theorem jwks_cache_ttl_behavior_witness :
    _get_jwks true 200 none ⟨100, some ⟨true, []⟩, 3600⟩
      = (.ok ⟨true, []⟩, ⟨100, some ⟨true, []⟩, 3600⟩, 0) ∧
    _get_jwks true 5000 (some ⟨true, []⟩) ⟨100, some ⟨true, []⟩, 3600⟩
      = (.ok ⟨true, []⟩, ⟨5000, some ⟨true, []⟩, 3600⟩, 1) :=
  ⟨(jwks_cache_ttl_behavior 200 none ⟨100, some ⟨true, []⟩, 3600⟩).2.1
      ⟨true, []⟩ rfl rfl (by decide),
   ((jwks_cache_ttl_behavior 5000 (some ⟨true, []⟩) ⟨100, some ⟨true, []⟩, 3600⟩).2.2
      (by decide)).2 ⟨true, []⟩ rfl⟩

/-- C3 counterexample: with an expired (but present and truthy) cached key
set and a failing network fetch, `_get_jwks` propagates the fetch error
instead of returning the expired cached set as a fallback: the code has no
fallback branch. -/
theorem jwks_no_expired_fallback_cex :
    _get_jwks true 5000 none ⟨0, some ⟨true, [⟨some "kid1", none, none, none, none⟩]⟩, 3600⟩
      = (.fetchError, ⟨0, some ⟨true, [⟨some "kid1", none, none, none, none⟩]⟩, 3600⟩, 1) ∧
    JwksOutcome.fetchError ≠ .ok ⟨true, [⟨some "kid1", none, none, none, none⟩]⟩ := by
  decide

/-- C3 amended: the key-set fetch fails with the fetch error exactly when
the cache holds no fresh truthy set (so a fetch is performed) and the
network fetch fails — an existing expired cached set is *not* used as a
fallback and the error is propagated regardless. -/
theorem jwks_fetch_error_propagation (now : Int) (fetch : Option Jwks) (c : JwksCache) :
    (_get_jwks true now fetch c).1 = .fetchError ↔
      fetch = none ∧ ¬(jwksTruthy c.jwks = true ∧ now - c.fetched_at < c.ttl) := by
  unfold _get_jwks
  rw [if_neg (by simp)]
  by_cases h : jwksTruthy c.jwks = true ∧ now - c.fetched_at < c.ttl
  · rw [if_pos h]
    simp [h]
  · rw [if_neg h]
    cases fetch <;> simp [h]

/-- C3 amended's witness: concrete instance of both iff directions. -/
theorem jwks_fetch_error_propagation_witness :
    (_get_jwks true 5000 none ⟨0, some ⟨true, []⟩, 3600⟩).1 = .fetchError ∧
    ¬((_get_jwks true 200 none ⟨100, some ⟨true, []⟩, 3600⟩).1 = .fetchError) :=
  ⟨(jwks_fetch_error_propagation 5000 none ⟨0, some ⟨true, []⟩, 3600⟩).mpr
      ⟨rfl, by decide⟩,
   fun h => by
    have := (jwks_fetch_error_propagation 200 none ⟨100, some ⟨true, []⟩, 3600⟩).mp h
    exact absurd ⟨rfl, by decide⟩ this.2⟩

/-- C4 (code bug): a whitespace-only `Authorization` header value passes
the `not auth` emptiness test, `auth.split()` yields `[]`, and `parts[0]`
raises an unhandled `IndexError` — neither the missing-header nor the
malformed-header 401 response, but a crash surfaced as a 500. -/
theorem auth_header_whitespace_crash :
    requires_auth_api false true none (some " ") (fun _ => none) 0 none JWKS_CACHE_init
      (fun _ _ => .err) = (.crash, JWKS_CACHE_init, 0) ∧
    ApiAuthResult.crash ≠ .missingHeader ∧
    ApiAuthResult.crash ≠ .malformedHeader ∧
    ApiAuthResult.status .crash = 500 := by
  decide

/-- C7: a valid create (body containing `descricao`) that does not hit a
stored idempotency record responds 201 with a DTO whose `concluida` is the
supplied value (default `false` when omitted) and whose `titulo` is the
supplied value (default `""` when omitted). -/
theorem criar_tarefa_valid_create
    (u : Option String) (k : Option String) (now : String) (b : Body) (d : JVal) (db : DB)
    (hb : b.get? "descricao" = some d)
    (hidem : get_idempotency_record "tarefas" k db = none) :
    (criar_tarefa u k now (some b) db).1
      = .created ⟨db.nextId, b.getD "titulo" (.jstr ""), d, b.getD "concluida" (.jbool false)⟩ ∧
    ((criar_tarefa u k now (some b) db).1).status = 201 ∧
    (b.get? "concluida" = none → b.getD "concluida" (.jbool false) = .jbool false) ∧
    (b.get? "titulo" = none → b.getD "titulo" (.jstr "") = .jstr "") := by
  have h1 : (criar_tarefa u k now (some b) db).1
      = .created ⟨db.nextId, b.getD "titulo" (.jstr ""), d, b.getD "concluida" (.jbool false)⟩ := by
    simp only [criar_tarefa, hb, hidem]
  refine ⟨h1, by rw [h1]; rfl, ?_, ?_⟩
  · intro h; simp [Body.getD, h]
  · intro h; simp [Body.getD, h]

/-- C7 witness: `POST {"descricao": "Buy milk"}` on an empty store returns
201 with `titulo = ""` and `concluida = false`. -/
theorem criar_tarefa_valid_create_witness :
    (criar_tarefa (some "alice") none "t1" (some [("descricao", .jstr "Buy milk")])
        ⟨[], [], [], 0⟩).1
      = .created ⟨0, .jstr "", .jstr "Buy milk", .jbool false⟩ :=
  (criar_tarefa_valid_create (some "alice") none "t1"
      [("descricao", .jstr "Buy milk")] (.jstr "Buy milk") ⟨[], [], [], 0⟩
      (by decide) (by decide)).1

/-- C8: a create whose body is absent or lacks `descricao` responds 400
and leaves the whole state (tasks, snapshots, idempotency records)
unchanged, regardless of which other fields are present. -/
theorem criar_tarefa_missing_descricao
    (u : Option String) (k : Option String) (now : String) (db : DB) :
    criar_tarefa u k now none db = (.badRequest, db) ∧
    (∀ b : Body, b.get? "descricao" = none →
      criar_tarefa u k now (some b) db = (.badRequest, db)) ∧
    CreateResult.status .badRequest = 400 := by
  refine ⟨rfl, ?_, rfl⟩
  intro b hb
  simp only [criar_tarefa, hb]

/-- C8 witness: a body with `titulo` and `concluida` but no `descricao`
yields 400 with the state unchanged. -/
theorem criar_tarefa_missing_descricao_witness :
    criar_tarefa (some "alice") (some "K") "t1"
        (some [("titulo", .jstr "x"), ("concluida", .jbool true)]) ⟨[], [], [], 3⟩
      = (.badRequest, ⟨[], [], [], 3⟩) :=
  (criar_tarefa_missing_descricao (some "alice") (some "K") "t1" ⟨[], [], [], 3⟩).2.1
    [("titulo", .jstr "x"), ("concluida", .jbool true)] (by decide)

/-- C10: idempotency records are keyed only by (collection, key) and store
no owner: when a stored record exists for the presented key, the create
handler returns it with the state unchanged, and the outcome is identical
whichever authenticated subject (and at whatever time) makes the request. -/
theorem idempotency_replay_owner_independent
    (u1 u2 : Option String) (k : Option String) (now1 now2 : String)
    (b : Body) (d : JVal) (db : DB) (rec : IdemRecord)
    (hb : b.get? "descricao" = some d)
    (hrec : get_idempotency_record "tarefas" k db = some rec) :
    criar_tarefa u1 k now1 (some b) db = (.replay rec.resource, db) ∧
    criar_tarefa u1 k now1 (some b) db = criar_tarefa u2 k now2 (some b) db := by
  have h1 : ∀ (u : Option String) (now : String),
      criar_tarefa u k now (some b) db = (.replay rec.resource, db) := by
    intro u now
    simp only [criar_tarefa, hb, hrec]
  exact ⟨h1 u1 now1, (h1 u1 now1).trans (h1 u2 now2).symm⟩

/-- C10 witness: a record stored during alice's request is replayed to bob
verbatim. -/
theorem idempotency_replay_owner_independent_witness :
    criar_tarefa (some "alice") (some "K") "t1" (some [("descricao", .jstr "x")])
        ⟨[], [], [⟨"tarefas", "K", ⟨7, .jstr "a", .jstr "b", .jbool false⟩⟩], 9⟩
      = criar_tarefa (some "bob") (some "K") "t2" (some [("descricao", .jstr "x")])
        ⟨[], [], [⟨"tarefas", "K", ⟨7, .jstr "a", .jstr "b", .jbool false⟩⟩], 9⟩ :=
  (idempotency_replay_owner_independent (some "alice") (some "bob") (some "K") "t1" "t2"
      [("descricao", .jstr "x")] (.jstr "x")
      ⟨[], [], [⟨"tarefas", "K", ⟨7, .jstr "a", .jstr "b", .jbool false⟩⟩], 9⟩
      ⟨"tarefas", "K", ⟨7, .jstr "a", .jstr "b", .jbool false⟩⟩
      (by decide) (by decide)).2

/-- C1: two creates with the same truthy `Idempotency-Key` and the same
valid body yield responses carrying the same resource (same id and body),
and the retry leaves the state untouched — in particular no second task
record is inserted: the handler replays the stored resource instead of
re-executing the insertion. -/
theorem criar_tarefa_idempotent_retry
    (u : Option String) (k : String) (now1 now2 : String) (b : Body) (d : JVal) (db : DB)
    (hk : k ≠ "") (hb : b.get? "descricao" = some d) :
    ∃ res : Resource,
      ((criar_tarefa u (some k) now1 (some b) db).1).resource? = some res ∧
      (criar_tarefa u (some k) now2 (some b)
          (criar_tarefa u (some k) now1 (some b) db).2).1 = .replay res ∧
      (criar_tarefa u (some k) now2 (some b)
          (criar_tarefa u (some k) now1 (some b) db).2).2
        = (criar_tarefa u (some k) now1 (some b) db).2 := by
  cases hrec : get_idempotency_record "tarefas" (some k) db with
  | some rec =>
    have h1 : criar_tarefa u (some k) now1 (some b) db = (.replay rec.resource, db) := by
      simp only [criar_tarefa, hb, hrec]
    have h2 : criar_tarefa u (some k) now2 (some b) db = (.replay rec.resource, db) := by
      simp only [criar_tarefa, hb, hrec]
    exact ⟨rec.resource, by rw [h1]; rfl, by rw [h1, h2], by rw [h1, h2]⟩
  | none =>
    rw [criar_tarefa_miss_eq u (some k) now1 b d db hb hrec]
    refine ⟨_, rfl, ?_, ?_⟩ <;>
      simp only [criar_tarefa, hb, get_save_idempotency "tarefas" k hk]

/-- C1 witness: a concrete retried create replays id 0's resource and
creates no second record. -/
theorem criar_tarefa_idempotent_retry_witness :
    ((criar_tarefa (some "alice") (some "K") "t1" (some [("descricao", .jstr "x")])
        ⟨[], [], [], 0⟩).1).resource?
      = some ⟨0, .jstr "", .jstr "x", .jbool false⟩ := by
  obtain ⟨res, h1, h2, _⟩ := criar_tarefa_idempotent_retry (some "alice") "K" "t1" "t2"
    [("descricao", .jstr "x")] (.jstr "x") ⟨[], [], [], 0⟩ (by decide) (by decide)
  have : res = ⟨0, .jstr "", .jstr "x", .jbool false⟩ := by
    have := h1
    rw [show ((criar_tarefa (some "alice") (some "K") "t1" (some [("descricao", .jstr "x")])
        ⟨[], [], [], 0⟩).1).resource? = some ⟨0, .jstr "", .jstr "x", .jbool false⟩ from by decide]
      at this
    exact (Option.some_inj.mp this).symm
  rw [← this]
  exact h1

/-- C9: updating a non-existent id returns 404 with the state unchanged;
updating an existing record with any subset of `{titulo, descricao,
concluida}` returns (and stores, readable back) a record whose supplied
fields carry the supplied values while unsupplied fields of that set — and
the id, owner and creation timestamp — retain their previous values. -/
theorem atualizar_tarefa_frame
    (id : Nat) (now : String) (body? : Option Body) (db : DB) :
    (taskFind db id = none → atualizar_tarefa id now body? db = (.notFound, db)) ∧
    (∀ t, taskFind db id = some t →
      (atualizar_tarefa id now body? db).1
        = .ok ⟨t.id, ((body?.getD []).get? "titulo").getD t.titulo,
               ((body?.getD []).get? "descricao").getD t.descricao,
               ((body?.getD []).get? "concluida").getD t.concluida⟩ ∧
      taskFind (atualizar_tarefa id now body? db).2 id
        = some { t with
                  titulo := ((body?.getD []).get? "titulo").getD t.titulo
                  descricao := ((body?.getD []).get? "descricao").getD t.descricao
                  concluida := ((body?.getD []).get? "concluida").getD t.concluida
                  atualizado_em := now }) := by
  constructor
  · intro h
    simp only [atualizar_tarefa, h]
  · intro t ht
    have hid : t.id = id := by
      have := List.find?_some ht
      simpa using this
    constructor
    · simp only [atualizar_tarefa, ht, applySet]
    · simp only [atualizar_tarefa, ht]
      simp only [taskFind]
      rw [updateFirst_find? (fun x => x.id = id) (applySet (body?.getD []) now)
            (fun x hx => by simpa [applySet] using hx)]
      rw [show db.tarefas.find? (fun x => decide (x.id = id)) = some t from ht]
      simp [applySet]

/-- C9 witness: updating only `concluida` keeps `titulo`/`descricao`; a
missing id yields 404. -/
theorem atualizar_tarefa_frame_witness :
    (atualizar_tarefa 5 "t2" (some [("concluida", .jbool true)])
        ⟨[], [], [], 0⟩ = (.notFound, ⟨[], [], [], 0⟩)) ∧
    (atualizar_tarefa 0 "t2" (some [("concluida", .jbool true)])
        ⟨[⟨0, .jstr "a", .jstr "b", .jbool false, some "alice", "t1", "t1"⟩], [], [], 1⟩).1
      = .ok ⟨0, .jstr "a", .jstr "b", .jbool true⟩ :=
  ⟨(atualizar_tarefa_frame 5 "t2" (some [("concluida", .jbool true)])
      ⟨[], [], [], 0⟩).1 (by decide),
   ((atualizar_tarefa_frame 0 "t2" (some [("concluida", .jbool true)])
      ⟨[⟨0, .jstr "a", .jstr "b", .jbool false, some "alice", "t1", "t1"⟩], [], [], 1⟩).2
      ⟨0, .jstr "a", .jstr "b", .jbool false, some "alice", "t1", "t1"⟩ (by decide)).1⟩

/-- C6 counterexample: `POST {"descricao": "x", "concluida": true}` on an
empty store creates a task whose completion flag is `true` while the
snapshot written for it has status `"open"`, not `"done"`: at creation the
status is hardcoded to `"open"` rather than computed from the flag. -/
theorem snapshot_create_status_cex :
    (taskFind (criar_tarefa (some "alice") none "t1"
        (some [("descricao", .jstr "x"), ("concluida", .jbool true)]) ⟨[], [], [], 0⟩).2 0).map
        (fun t => t.concluida) = some (.jbool true) ∧
    (snapFind (criar_tarefa (some "alice") none "t1"
        (some [("descricao", .jstr "x"), ("concluida", .jbool true)]) ⟨[], [], [], 0⟩).2 0).map
        (fun s => s.status) = some "open" ∧
    "open" ≠ "done" := by
  decide

/-- C6 amended: after an update the snapshot status is computed from the
post-update completion flag (`"done"` iff the flag is truthy); after a
create the snapshot status is always `"open"`, regardless of the supplied
completion flag. -/
theorem snapshot_status_lockstep (db : DB) :
    (∀ (u : Option String) (k : Option String) (now : String) (b : Body) (d : JVal),
      b.get? "descricao" = some d →
      get_idempotency_record "tarefas" k db = none →
      (snapFind (criar_tarefa u k now (some b) db).2 db.nextId).map (fun s => s.status)
        = some "open") ∧
    (∀ (id : Nat) (now : String) (body? : Option Body) (t : TaskDoc),
      taskFind db id = some t →
      (snapFind (atualizar_tarefa id now body? db).2 id).map (fun s => s.status)
        = some (if jvalTruthy (some ((applySet (body?.getD []) now t).concluida))
                then "done" else "open")) := by
  constructor
  · intro u k now b d hb hidem
    rw [criar_tarefa_miss_eq u k now b d db hb hidem, snapFind_save]
    by_cases hs : (db.snapshots.find? (fun e => e.1 = db.nextId)).isSome = true
    · simp only [snapFind, hs, if_pos]
      rw [updateFirst_find? (fun e : Nat × SnapDoc => e.1 = db.nextId)
            (fun e : Nat × SnapDoc =>
              (e.1, (⟨b.getD "titulo" (.jstr ""), d, some u, some now, "open", now⟩ : SnapDoc)))
            (fun x hx => hx)]
      obtain ⟨e, he⟩ := Option.isSome_iff_exists.mp hs
      rw [he]
      rfl
    · simp only [snapFind, hs, if_neg, Bool.false_eq_true, if_false]
      rw [List.find?_append, Option.not_isSome_iff_eq_none.mp hs]
      simp
  · intro id now body? t ht
    simp only [atualizar_tarefa, ht]
    by_cases hs : (db.snapshots.find? (fun e => e.1 = id)).isSome = true
    · simp only [snapFind, hs, if_pos]
      rw [updateFirst_find? (fun e : Nat × SnapDoc => e.1 = id)
            (fun e : Nat × SnapDoc => (e.1, snapSet (applySet (body?.getD []) now t) now e.2))
            (fun x hx => hx)]
      obtain ⟨e, he⟩ := Option.isSome_iff_exists.mp hs
      rw [he]
      rfl
    · simp only [snapFind, hs, if_neg, Bool.false_eq_true, if_false]
      rw [List.find?_append, Option.not_isSome_iff_eq_none.mp hs]
      simp

/-- C6 amended's witness: creating with `concluida: true` stores an "open"
snapshot; flipping `concluida` to `true` by update stores a "done" one. -/
theorem snapshot_status_lockstep_witness :
    (snapFind (criar_tarefa (some "alice") none "t1"
        (some [("descricao", .jstr "x"), ("concluida", .jbool true)]) ⟨[], [], [], 0⟩).2 0).map
        (fun s => s.status) = some "open" ∧
    (snapFind (atualizar_tarefa 0 "t2" (some [("concluida", .jbool true)])
        ⟨[⟨0, .jstr "a", .jstr "b", .jbool false, some "alice", "t1", "t1"⟩],
         [(0, ⟨.jstr "a", .jstr "b", some (some "alice"), some "t1", "open", "t1"⟩)],
         [], 1⟩).2 0).map (fun s => s.status) = some "done" := by
  constructor
  · exact (snapshot_status_lockstep ⟨[], [], [], 0⟩).1 (some "alice") none "t1"
      [("descricao", .jstr "x"), ("concluida", .jbool true)] (.jstr "x")
      (by decide) (by decide)
  · have h := (snapshot_status_lockstep
        ⟨[⟨0, .jstr "a", .jstr "b", .jbool false, some "alice", "t1", "t1"⟩],
         [(0, ⟨.jstr "a", .jstr "b", some (some "alice"), some "t1", "open", "t1"⟩)],
         [], 1⟩).2 0 "t2" (some [("concluida", .jbool true)])
        ⟨0, .jstr "a", .jstr "b", .jbool false, some "alice", "t1", "t1"⟩ (by decide)
    rw [h]
    decide

/-- C5: for a well-formed bearer token (two-token header, first word
"bearer", parsable token header) verified against a fresh cached key set,
a key id matching no key yields the key-not-found error with HTTP 401;
and a well-keyed token whose decode reports an expired signature yields
the token-expired error, which is distinct from the malformed-header
error, also with HTTP 401. -/
theorem token_verifier_key_and_expiry
    (rs : Option String) (a p0 t : String)
    (parseHeader : String → Option (Option String)) (kid? : Option String)
    (now : Int) (fetch : Option Jwks) (c : JwksCache) (j : Jwks)
    (decode : String → JwkKey → DecodeResult)
    (ha : a ≠ "") (hsplit : pySplit a = [p0, t]) (hbearer : pyLower p0 = "bearer")
    (hparse : parseHeader t = some kid?)
    (hj : c.jwks = some j) (htr : j.truthy = true)
    (hfresh : now - c.fetched_at < c.ttl) :
    (j.keys.find? (fun k => k.kid = kid?) = none →
      requires_auth_api false true rs (some a) parseHeader now fetch c decode
        = (.keyNotFound, c, 0) ∧ ApiAuthResult.status .keyNotFound = 401) ∧
    (∀ key, j.keys.find? (fun k => k.kid = kid?) = some key →
      decode t key = .expired →
      requires_auth_api false true rs (some a) parseHeader now fetch c decode
        = (.tokenExpired, c, 0) ∧
      ApiAuthResult.tokenExpired ≠ .malformedHeader ∧
      ApiAuthResult.status .tokenExpired = 401) := by
  have hjwks : _get_jwks true now fetch c = (.ok j, c, 0) := by
    simp [_get_jwks, jwksTruthy, hj, htr, hfresh]
  have hpipe : requires_auth_api false true rs (some a) parseHeader now fetch c decode
      = (match j.keys.find? (fun k => k.kid = kid?) with
         | none => (.keyNotFound, c, 0)
         | some key =>
           match decode t key with
           | .expired => (.tokenExpired, c, 0)
           | .err => (.tokenInvalid, c, 0)
           | .ok payload =>
             match rs with
             | none => (.authorized payload, c, 0)
             | some s =>
               if s ∈ scopesList payload then (.authorized payload, c, 0)
               else (.insufficientScope, c, 0)) := by
    simp only [requires_auth_api, Bool.false_eq_true, if_false, if_neg ha, hsplit,
      List.length_cons, List.length_nil, List.headD_cons, hbearer, hparse, hjwks]
    rw [if_pos ⟨trivial, trivial⟩]
  constructor
  · intro hfind
    rw [hpipe, hfind]
    exact ⟨rfl, rfl⟩
  · intro key hfind hdec
    rw [hpipe, hfind]
    simp only [hdec]
    exact ⟨trivial, by decide, rfl⟩

/-- C5 witness: a "Bearer tok" header whose kid misses an empty key set is
rejected with key-not-found; with a matching key and an expired decode the
result is token-expired. -/
theorem token_verifier_key_and_expiry_witness :
    (requires_auth_api false true none (some "Bearer tok") (fun _ => some (some "k1")) 100 none
        ⟨0, some ⟨true, []⟩, 3600⟩ (fun _ _ => .err)
      = (.keyNotFound, ⟨0, some ⟨true, []⟩, 3600⟩, 0)) ∧
    (requires_auth_api false true none (some "Bearer tok") (fun _ => some (some "k1")) 100 none
        ⟨0, some ⟨true, [⟨some "k1", none, none, none, none⟩]⟩, 3600⟩ (fun _ _ => .expired)
      = (.tokenExpired, ⟨0, some ⟨true, [⟨some "k1", none, none, none, none⟩]⟩, 3600⟩, 0)) :=
  ⟨((token_verifier_key_and_expiry none "Bearer tok" "Bearer" "tok" (fun _ => some (some "k1"))
      (some "k1") 100 none ⟨0, some ⟨true, []⟩, 3600⟩ ⟨true, []⟩ (fun _ _ => .err)
      (by decide) (by decide) (by decide) rfl rfl rfl (by decide)).1 (by decide)).1,
   ((token_verifier_key_and_expiry none "Bearer tok" "Bearer" "tok" (fun _ => some (some "k1"))
      (some "k1") 100 none ⟨0, some ⟨true, [⟨some "k1", none, none, none, none⟩]⟩, 3600⟩
      ⟨true, [⟨some "k1", none, none, none, none⟩]⟩ (fun _ _ => .expired)
      (by decide) (by decide) (by decide) rfl rfl rfl (by decide)).2
      ⟨some "k1", none, none, none, none⟩ (by decide) rfl).1⟩

end TasksService
